import Mathlib

/-!
# Verification of the Febos HACS integration core

Shallow embedding of the discovery / normalization / update / write-path core
of the `febos_hacs` custom component (files `session.py`, `normalization.py`,
`coordinator.py`).  Python values are modelled by the sum type `Val`
(machine floats are modelled by exact rationals), Python exceptions by
`Except`/`Option`, and the vendor HTTP endpoints by explicit outcome
parameters.  Definitions are transcribed from the Python sources; the one
function the sources call but do not define (`NormalizedInput.to_original_scale`)
is modelled from the spec and marked as such.
-/

namespace Febos

/-- A Python runtime value as it appears in this integration:
`int`, `float` (modelled exactly as a rational), `bool`, or `str`. -/
inductive Val where
  | vInt  (n : Int)
  | vRat  (q : ℚ)
  | vBool (b : Bool)
  | vStr  (s : String)
deriving DecidableEq, Repr

/-- Numeric view of a value, mirroring Python's numeric tower where `bool`
is a subtype of `int`; strings are not numeric. -/
def toRatNum : Val → Option ℚ
  | .vInt n  => some (n : ℚ)
  | .vRat q  => some q
  | .vBool b => some (if b then 1 else 0)
  | .vStr _  => none

/-- Python `==` on the values this integration handles: numbers (including
`bool`) compare numerically, strings compare with strings, and a number never
equals a string. -/
def pyEq (a b : Val) : Bool :=
  match toRatNum a, toRatNum b with
  | some x, some y => x == y
  | _, _ =>
    match a, b with
    | .vStr s, .vStr t => s == t
    | _, _ => false

/-- Python `==` lifted to optional values; `None` equals only `None`. -/
def optPyEq : Option Val → Option Val → Bool
  | none, none => true
  | some a, some b => pyEq a b
  | _, _ => false

/-- Python truthiness, `bool(v)`: nonzero numbers and nonempty strings. -/
def pyBool : Val → Bool
  | .vInt n  => n != 0
  | .vRat q  => q != 0
  | .vBool b => b
  | .vStr s  => s != ""

/-- The four Python types a vendor `inputType` can resolve to. -/
inductive PyType where
  | pInt | pFloat | pBool | pStr
deriving DecidableEq, Repr

/-- Truncation toward zero, as Python's `int(float)` conversion. -/
def ratTrunc (q : ℚ) : Int :=
  if 0 ≤ q then ⌊q⌋ else ⌈q⌉

/-- Python type-constructor conversion `T(v)`; `none` models a raised
`ValueError`/`TypeError`.  String-to-number parsing is modelled for decimal
integer strings (the only numeric strings this integration can receive). -/
def pyConvert : PyType → Val → Option Val
  | .pInt, .vInt n  => some (.vInt n)
  | .pInt, .vRat q  => some (.vInt (ratTrunc q))
  | .pInt, .vBool b => some (.vInt (if b then 1 else 0))
  | .pInt, .vStr s  => (s.trim.toInt?).map .vInt
  | .pFloat, .vInt n  => some (.vRat (n : ℚ))
  | .pFloat, .vRat q  => some (.vRat q)
  | .pFloat, .vBool b => some (.vRat (if b then 1 else 0))
  | .pFloat, .vStr s  => (s.trim.toInt?).map (fun (n : Int) => .vRat (n : ℚ))
  | .pBool, v => some (.vBool (pyBool v))
  | .pStr, .vStr s  => some (.vStr s)
  | .pStr, .vInt n  => some (.vStr (toString n))
  | .pStr, .vBool b => some (.vStr (if b then "True" else "False"))
  | .pStr, .vRat q  => some (.vStr (toString q))

/-- Python `isinstance(v, t)`, with `bool` a subclass of `int`. -/
def pyIsInstance : Val → PyType → Bool
  | .vInt _,  .pInt   => true
  | .vBool _, .pBool  => true
  | .vBool _, .pInt   => true
  | .vRat _,  .pFloat => true
  | .vStr _,  .pStr   => true
  | _, _ => false

/-! ## Scaling (normalization.py lines 32-63 and 138-205) -/

/-- `int16`: convert a two's complement 16-bit integer into an int
(normalization.py lines 32-35, after the `int()` coercion). -/
def int16 (v : Int) : Int :=
  if v < 32768 then v else v - 65536

/-- The seven scaling functions appearing in the `_scaled_value` table. -/
inductive ScaleKind where
  | tenth | hundred | thousand | byTen | bySixty | ctwo | ctwoThousand
deriving DecidableEq, Repr

/-- The code → scaling-function table of `NormalizedInput._scaled_value`
(normalization.py lines 143-205), in source order. -/
def scaleTable (c : String) : Option ScaleKind :=
  [("R9120", ScaleKind.bySixty),
   ("R8208", ScaleKind.thousand), ("R8209", ScaleKind.thousand),
   ("R8211", ScaleKind.thousand), ("R8212", ScaleKind.thousand),
   ("R8214", ScaleKind.thousand), ("R8215", ScaleKind.thousand),
   ("R8217", ScaleKind.thousand), ("R8218", ScaleKind.thousand),
   ("R8100", ScaleKind.tenth), ("R8665", ScaleKind.tenth),
   ("R8666", ScaleKind.tenth), ("R8678", ScaleKind.tenth),
   ("R8680", ScaleKind.tenth), ("R8698", ScaleKind.tenth),
   ("R8702", ScaleKind.tenth), ("R8703", ScaleKind.tenth),
   ("R8986", ScaleKind.tenth), ("R8987", ScaleKind.tenth),
   ("R8988", ScaleKind.tenth), ("R8989", ScaleKind.tenth),
   ("R9042", ScaleKind.tenth), ("R9051", ScaleKind.tenth),
   ("R9052", ScaleKind.tenth), ("R16444", ScaleKind.tenth),
   ("R16446", ScaleKind.tenth), ("R16448", ScaleKind.tenth),
   ("R16450", ScaleKind.tenth), ("R16451", ScaleKind.tenth),
   ("R16453", ScaleKind.tenth), ("R16455", ScaleKind.tenth),
   ("R16457", ScaleKind.tenth), ("R16494", ScaleKind.tenth),
   ("R16495", ScaleKind.tenth), ("R16496", ScaleKind.tenth),
   ("R16497", ScaleKind.tenth), ("R16515", ScaleKind.tenth),
   ("R8684", ScaleKind.hundred), ("R8686", ScaleKind.hundred),
   ("R8688", ScaleKind.hundred), ("R8690", ScaleKind.hundred),
   ("R9121", ScaleKind.byTen), ("R9122", ScaleKind.byTen),
   ("R9123", ScaleKind.byTen), ("R9126", ScaleKind.byTen),
   ("R9127", ScaleKind.byTen), ("R9128", ScaleKind.byTen),
   ("R9129", ScaleKind.byTen), ("R16534", ScaleKind.hundred),
   ("R8002", ScaleKind.ctwoThousand), ("R8005", ScaleKind.ctwoThousand),
   ("R8008", ScaleKind.ctwoThousand), ("R8011", ScaleKind.ctwoThousand),
   ("R8105", ScaleKind.ctwo), ("R8110", ScaleKind.ctwo),
   ("R8111", ScaleKind.thousand), ("R8112", ScaleKind.thousand),
   ("R8220", ScaleKind.thousand), ("R8221", ScaleKind.thousand),
   ("R8222", ScaleKind.thousand), ("R8223", ScaleKind.thousand)
  ].lookup c

/-- Apply a scaling function to a numeric value (as an exact rational).
`ctwo`/`ctwoThousand` first coerce with `int()` (truncation), as the source's
`int16` does. -/
def applyScaleQ : ScaleKind → ℚ → ℚ
  | .tenth        => fun q => q / 10
  | .hundred      => fun q => q / 100
  | .thousand     => fun q => q / 1000
  | .byTen        => fun q => q * 10
  | .bySixty      => fun q => q * 60
  | .ctwo         => fun q => ((int16 (ratTrunc q) : Int) : ℚ)
  | .ctwoThousand => fun q => ((int16 (ratTrunc q) : Int) : ℚ) / 1000

/-! ## Normalized inputs (normalization.py) -/

/-- The vendor `Input` record fields this core reads
(`febos` client library model, as consumed by normalization.py/session.py). -/
structure Input where
  code : String
  inputType : String
  deviceId : Int
  thingId : Int
  defaultIntValue : Option Int
  category : String
  name : String
  min : Option Int
  max : Option Int
deriving DecidableEq, Repr

/-- Codes forced to `bool` regardless of vendor `inputType`
(normalization.py line 258). -/
def boolForcedCodes : List String :=
  ["R8648", "R8967", "R9071", "R9072", "R9076", "R9078", "R9079"]

/-- `NormalizedInput.value_type` (normalization.py lines 251-265); `none`
models the `KeyError` raised for an unknown `inputType`. -/
def valueType (i : Input) : Option PyType :=
  if i.code ∈ boolForcedCodes then some .pBool
  else
    match i.inputType with
    | "INT" => some .pInt
    | "FLOAT" => some .pFloat
    | "BOOL" => some .pBool
    | "STRING" => some .pStr
    | _ => none

/-- A `NormalizedInput` (identity, classification inputs, and the mutable
stored value). The Home-Assistant `DeviceInfo` payload is irrelevant to the
claims and kept as the registry record built in discovery. -/
structure NInput where
  key : String
  installation_id : Int
  thing_model_id : Int
  input : Input
  value : Option Val
deriving DecidableEq, Repr

/-- `NormalizedInput.__init__` value initialization (normalization.py lines
91-93): an `INT` input with a non-`None` `defaultIntValue` starts at that
integer; every other input starts at `None`. -/
def initValue (i : Input) : Option Val :=
  if i.inputType = "INT" then i.defaultIntValue.map Val.vInt else none

/-- Construct a `NormalizedInput` (normalization.py lines 74-93). -/
def NInput.init (key : String) (installation_id thing_model_id : Int)
    (input : Input) : NInput :=
  { key, installation_id, thing_model_id, input, value := initValue input }

/-- The `value` setter (normalization.py lines 124-136): `None` is stored
unconverted, any other value is converted with `value_type`; the guarded
change notification fires exactly when the converted value differs (Python
`!=`) from the previous one.  `Except.error` models a raised conversion or
`value_type` lookup error, which leaves the object unchanged. -/
def setValue (s : NInput) (v : Option Val) : Except Unit (NInput × Bool) :=
  match v with
  | none =>
      Except.ok ({ s with value := none }, !optPyEq s.value none)
  | some w =>
      match valueType s.input with
      | none => Except.error ()
      | some vt =>
          match pyConvert vt w with
          | none => Except.error ()
          | some cw =>
              Except.ok ({ s with value := some cw }, !optPyEq s.value (some cw))

/-- Binary-sensor device classes used by this integration. -/
inductive BSClass where
  | cold | problem | running | window | presence
deriving DecidableEq, Repr

/-- `NormalizedInput.binary_sensor_device_class` (normalization.py lines
398-428); `none` models the `KeyError` for a code outside the table. -/
def bsClassTable (c : String) : Option BSClass :=
  [("R8648", BSClass.cold), ("R8683", BSClass.cold), ("R8684", BSClass.cold),
   ("R16385", BSClass.cold),
   ("R9089", BSClass.problem), ("R9090", BSClass.problem),
   ("R9095", BSClass.problem), ("R9096", BSClass.problem),
   ("R9097", BSClass.problem), ("R9098", BSClass.problem),
   ("R9099", BSClass.problem), ("R9102", BSClass.problem),
   ("R9103", BSClass.problem), ("R9104", BSClass.problem),
   ("R16384", BSClass.running), ("R8681", BSClass.running),
   ("R8682", BSClass.running), ("R8692", BSClass.running),
   ("R8967", BSClass.running), ("R9071", BSClass.running),
   ("R9072", BSClass.running), ("R9073", BSClass.running),
   ("R9074", BSClass.running), ("R9076", BSClass.running),
   ("R9078", BSClass.running), ("R9079", BSClass.running),
   ("R8672", BSClass.window), ("R8673", BSClass.presence),
   ("R8676", BSClass.presence)
  ].lookup c

/-- `NormalizedInput.binary_sensor_normalized_value` (normalization.py lines
207-219): `None` stays `None`; the `COLD` device class negates the raw
boolean; every other class takes `bool(value)` unchanged. -/
def binarySensorNormalizedValue (i : NInput) : Except Unit (Option Bool) :=
  match i.value with
  | none => Except.ok none
  | some v =>
      match bsClassTable i.input.code with
      | none => Except.error ()
      | some c =>
          if c = BSClass.cold then Except.ok (some (!pyBool v))
          else Except.ok (some (pyBool v))

/-- `NormalizedInput._scaled_value` (normalization.py lines 138-205): `None`
stays `None`; a code in the scaling table gets its function applied (a raised
conversion on a non-numeric value is `Except.error`); any other code returns
the value unchanged. -/
def scaledValue (i : NInput) : Except Unit (Option Val) :=
  match i.value with
  | none => Except.ok none
  | some v =>
      match scaleTable i.input.code with
      | none => Except.ok (some v)
      | some k =>
          match toRatNum v with
          | none => Except.error ()
          | some q => Except.ok (some (.vRat (applyScaleQ k q)))

/-- The four Home-Assistant platforms an input can be classified into. -/
inductive EntityType where
  | binarySensor | sensor | switch | number
deriving DecidableEq, Repr

/-- `NormalizedInput.entity_type` (normalization.py lines 539-563); `none`
models the raised `KeyError`/`ValueError` for unclassifiable inputs. -/
def entityType (i : NInput) : Option EntityType :=
  let fro := i.thing_model_id == 8 || (i.input.code ∈ ["R8681", "R8682", "R16515"])
  match valueType i.input with
  | none => none
  | some vt =>
      if i.input.category = "C_PARAMETER" ∧ ¬fro then
        match vt with
        | .pBool => some .switch
        | .pFloat => some .number
        | .pInt => some .number
        | .pStr => none
      else if i.input.category = "C_DATA" ∨ fro then
        if vt = .pBool then some .binarySensor else some .sensor
      else none

/-- `NormalizedInput.normalized_value` (normalization.py lines 565-580),
dispatching on the entity type. -/
def normalizedValue (i : NInput) : Except Unit (Option Val) :=
  match entityType i with
  | none => Except.error ()
  | some .binarySensor => (binarySensorNormalizedValue i).map (·.map Val.vBool)
  | some .sensor => scaledValue i
  | some .switch => Except.ok (i.value.map (fun v => .vBool (pyBool v)))
  | some .number => scaledValue i

/-! ## Session state and discovery (session.py) -/

/-- The Home-Assistant `DeviceInfo` record built for each `(device, thing)`
during discovery (session.py lines 140-155). -/
structure DeviceInfoRec where
  idKey : String
  manufacturer : String
  model : String
  name : String
deriving DecidableEq, Repr

/-- A vendor `Thing` as read by discovery. -/
structure ThingRec where
  id : Int
  deviceId : Int
  modelId : Int
  modelCode : String
  modelName : String
deriving DecidableEq, Repr

/-- A vendor `Device` as read by discovery. -/
structure DeviceRec where
  id : Int
  tenantName : String
  code : String
  modelName : String
deriving DecidableEq, Repr

/-- One installation's page configuration.  `thingMap`/`deviceMap` are the
vendor dictionaries (keyed by the stringified id; modelled as lists in
iteration order).  The page → tab → widget → group walk of session.py lines
157-165 is flattened to the sequence of group codes it unions (`groupCodes`)
and the sequence of widget-group input entries it visits (`inputsSeq`),
in walk order — the claims depend only on those sequences. -/
structure PageConfig where
  thingMap : List ThingRec
  deviceMap : List DeviceRec
  groupCodes : List String
  inputsSeq : List Input
deriving DecidableEq, Repr

/-- `unique_key(installation_id, device_id, thing_id, input_code, domain)`
for inputs (session.py lines 15-31, with `domain = DOMAIN = "febos"`). -/
def inputKey (iid dev thing : Int) (code : String) : String :=
  String.intercalate "_" ["febos", toString iid, toString dev, toString thing, code]

/-- `unique_key(installation_id, device_id, thing_id)` used in device
identifiers (no domain, no code). -/
def deviceKey (iid dev thing : Int) : String :=
  String.intercalate "_" [toString iid, toString dev, toString thing]

/-- The `DeviceInfo` built for a thing and its owning device
(session.py lines 140-155). -/
def mkDeviceInfo (iid : Int) (t : ThingRec) (d : DeviceRec) : DeviceInfoRec :=
  { idKey := deviceKey iid t.deviceId t.id
    manufacturer := d.tenantName
    model := d.code ++ ": " ++ d.modelName
    name := t.modelCode ++ "-" ++ toString t.id ++ ": " ++ t.modelName }

/-- The session state committed by discovery (session.py lines 47-51 and
218-227): known installations, per-installation group codes, the device
registry keyed by `(installation, device, thing)`, and the flat table of
normalized inputs (the nested `inputs` dict flattened in iteration order;
`inputs_map` is recovered by key lookup). -/
structure Session where
  installations : List Int
  groups : List (Int × List String)
  devices : List ((Int × Int × Int) × DeviceInfoRec)
  inputs : List NInput
deriving DecidableEq, Repr

/-- Thing walk of one installation (session.py lines 133-155): each thing is
registered once per `(deviceId, id)`; a thing whose `deviceId` is absent from
`deviceMap` raises `KeyError` (`Except.error`). -/
def discoverThings (iid : Int) (dm : List DeviceRec) :
    List ThingRec → List ((Int × Int) × DeviceInfoRec) →
    Except Unit (List ((Int × Int) × DeviceInfoRec))
  | [], acc => Except.ok acc
  | t :: ts, acc =>
      if (acc.lookup (t.deviceId, t.id)).isSome then
        discoverThings iid dm ts acc
      else
        match dm.find? (fun d => d.id == t.deviceId) with
        | none => Except.error ()
        | some d => discoverThings iid dm ts (acc ++ [((t.deviceId, t.id), mkDeviceInfo iid t d)])

/-- Input walk of one installation (session.py lines 166-214): an entry whose
`(deviceId, thingId, code)` triple was already created is skipped (dedup);
one whose `(deviceId, thingId)` has no registered device raises `ValueError`;
one whose `thingId` is absent from `thingMap` raises `KeyError`. -/
def discoverInputs (iid : Int) (cfg : PageConfig)
    (devs : List ((Int × Int) × DeviceInfoRec)) :
    List Input → List NInput → Except Unit (List NInput)
  | [], acc => Except.ok acc
  | ie :: rest, acc =>
      if acc.any (fun i =>
          i.input.deviceId == ie.deviceId && i.input.thingId == ie.thingId &&
          i.input.code == ie.code) then
        discoverInputs iid cfg devs rest acc
      else
        match devs.lookup (ie.deviceId, ie.thingId) with
        | none => Except.error ()
        | some _ =>
            match cfg.thingMap.find? (fun t => t.id == ie.thingId) with
            | none => Except.error ()
            | some th =>
                discoverInputs iid cfg devs rest
                  (acc ++ [NInput.init (inputKey iid ie.deviceId ie.thingId ie.code)
                            iid th.modelId ie])

/-- Group-code accumulation for one installation: the set union of every
group code in the page walk, as a duplicate-free list. -/
def groupsOfCfg (cfg : PageConfig) : List String :=
  cfg.groupCodes.foldl (fun acc c => if c ∈ acc then acc else acc ++ [c]) []

/-- Discovery of one installation: things first, then inputs. -/
def discoverOne (iid : Int) (cfg : PageConfig) :
    Except Unit (List String × List ((Int × Int) × DeviceInfoRec) × List NInput) := do
  let devs ← discoverThings iid cfg.deviceMap cfg.thingMap []
  let ins ← discoverInputs iid cfg devs cfg.inputsSeq []
  pure (groupsOfCfg cfg, devs, ins)

/-- Discovery over the installation list; `pages` is the outcome of each
`PageConfigEndpoint.get` call (`Except.error` = transport exception). -/
def discoverAll (pages : Int → Except Unit PageConfig) :
    List Int →
    Except Unit (List (Int × List String) × List ((Int × Int × Int) × DeviceInfoRec) × List NInput)
  | [] => Except.ok ([], [], [])
  | iid :: rest => do
      let cfg ← pages iid
      let (gs, ds, ins) ← discoverOne iid cfg
      let (gs', ds', ins') ← discoverAll pages rest
      pure ((iid, gs) :: gs', ds.map (fun e => ((iid, e.1.1, e.1.2), e.2)) ++ ds', ins ++ ins')

/-- `FebosSession.discover` (session.py lines 117-227): the whole walk runs
on local accumulators and the session is only assigned at the very end, so
any exception leaves the session exactly as it was (`Except.error s`). -/
def discover (s : Session) (pages : Int → Except Unit PageConfig) :
    Except Session Session :=
  match discoverAll pages s.installations with
  | Except.error _ => Except.error s
  | Except.ok (gs, ds, ins) =>
      Except.ok { s with groups := gs, devices := ds, inputs := ins }

/-! ## Update engine (session.py lines 229-264) -/

/-- One element of a realtime-data response: values for one
`(device, thing)`. -/
structure RTEntry where
  deviceId : Int
  thingId : Int
  data : List (String × Val)
deriving DecidableEq, Repr

/-- A warning logged for a realtime tuple with no matching input
(session.py lines 254-257). -/
structure Warning where
  installation_id : Int
  deviceId : Int
  thingId : Int
  code : String
  value : Val
deriving DecidableEq, Repr

/-- Whether a normalized input is the one registered for this
`(installation, device, thing, code)` identity. -/
def isMatchFor (iid dev th : Int) (code : String) (i : NInput) : Bool :=
  i.installation_id == iid && i.input.deviceId == dev &&
  i.input.thingId == th && i.input.code == code

/-- Assign a value (through the `value` setter) to the first input matching
`p`: `none` if no input matches, `Except.error` if the setter raises (the
list is then unchanged, since the exception interrupts the assignment). -/
def setFirstBy (p : NInput → Bool) (v : Val) :
    List NInput → Except Unit (Option (List NInput))
  | [] => Except.ok none
  | i :: rest =>
      if p i then (setValue i (some v)).map (fun r => some (r.1 :: rest))
      else (setFirstBy p v rest).map (fun o => o.map (i :: ·))

/-- Process one realtime tuple (session.py lines 245-257): a matching input
gets the value assigned; otherwise a warning is appended and the tuple is
ignored.  A raised assignment aborts the cycle with the inputs unchanged
so far (`Except.error`). -/
def updateTuple (iid dev th : Int) (code : String) (v : Val)
    (inputs : List NInput) (ws : List Warning) :
    Except (List NInput) (List NInput × List Warning) :=
  match setFirstBy (isMatchFor iid dev th code) v inputs with
  | Except.error _ => Except.error inputs
  | Except.ok none => Except.ok (inputs, ws ++ [⟨iid, dev, th, code, v⟩])
  | Except.ok (some inputs') => Except.ok (inputs', ws)

/-- Fold `updateTuple` over one entry's `(code, value)` items. -/
def updateData (iid dev th : Int) :
    List (String × Val) → List NInput → List Warning →
    Except (List NInput) (List NInput × List Warning)
  | [], inputs, ws => Except.ok (inputs, ws)
  | (code, v) :: rest, inputs, ws =>
      match updateTuple iid dev th code v inputs ws with
      | Except.error st => Except.error st
      | Except.ok (inputs', ws') => updateData iid dev th rest inputs' ws'

/-- Fold over the entries of one installation's realtime response. -/
def updateEntries (iid : Int) :
    List RTEntry → List NInput → List Warning →
    Except (List NInput) (List NInput × List Warning)
  | [], inputs, ws => Except.ok (inputs, ws)
  | e :: rest, inputs, ws =>
      match updateData iid e.deviceId e.thingId e.data inputs ws with
      | Except.error st => Except.error st
      | Except.ok (inputs', ws') => updateEntries iid rest inputs' ws'

/-- Per-installation update loop (session.py lines 238-257): the group list
for the installation is read (`KeyError` if absent), the realtime fetch runs
(`Except.error` = transport exception), and the response tuples are applied
in place.  Any exception propagates with the inputs as mutated so far. -/
def updateAll (groups : List (Int × List String))
    (fetch : Int → Except Unit (List RTEntry)) :
    List Int → List NInput → List Warning →
    Except (List NInput) (List NInput × List Warning)
  | [], inputs, ws => Except.ok (inputs, ws)
  | iid :: rest, inputs, ws =>
      match groups.lookup iid with
      | none => Except.error inputs
      | some _ =>
          match fetch iid with
          | Except.error _ => Except.error inputs
          | Except.ok entries =>
              match updateEntries iid entries inputs ws with
              | Except.error st => Except.error st
              | Except.ok (inputs', ws') => updateAll groups fetch rest inputs' ws'

/-- The key → `normalized_value` projection returned by `update` and
`set_value` (session.py lines 258-264 and 297-303); a raising
`normalized_value` aborts the comprehension (`Except.error`). -/
def projection : List NInput → Except Unit (List (String × Option Val))
  | [] => Except.ok []
  | i :: rest => do
      let v ← normalizedValue i
      let p ← projection rest
      pure ((i.key, v) :: p)

/-- `FebosSession.update` (session.py lines 229-264).  The error value is the
session at the point the exception was raised — values already applied to
inputs stay applied, because the loop mutates the shared input objects as it
goes. -/
def update (s : Session) (fetch : Int → Except Unit (List RTEntry)) :
    Except Session (Session × List Warning × List (String × Option Val)) :=
  match updateAll s.groups fetch s.installations s.inputs [] with
  | Except.error st => Except.error { s with inputs := st }
  | Except.ok (inputs', ws) =>
      match projection inputs' with
      | Except.error _ => Except.error { s with inputs := inputs' }
      | Except.ok p => Except.ok ({ s with inputs := inputs' }, ws, p)

/-! ## Write path (session.py lines 266-303) -/

/-- Outcome of the realtime-data `post`: a transport-level `HTTPStatusError`,
or a vendor response body with its application error code. -/
inductive RemoteResult where
  | transportError
  | response (errCode : Int) (msg : String)
deriving DecidableEq, Repr

/-- Inverse of each scaling function, on exact rationals; the two's
complement kinds re-encode into the unsigned 16-bit raw domain. -/
def invScaleQ : ScaleKind → ℚ → ℚ
  | .tenth        => fun q => q * 10
  | .hundred      => fun q => q * 100
  | .thousand     => fun q => q * 1000
  | .byTen        => fun q => q / 10
  | .bySixty      => fun q => q / 60
  | .ctwo         => fun q => ((ratTrunc q % 65536 : Int) : ℚ)
  | .ctwoThousand => fun q => ((ratTrunc (q * 1000) % 65536 : Int) : ℚ)

/-- Modelled from the spec: `NormalizedInput.to_original_scale` is called by
`FebosSession.set_value` (session.py line 274) but is not defined anywhere in
the sources.  Per spec §4.1/§4.2/§4.5, the write path converts the requested
value back to the vendor's original scale with the exact algebraic inverse of
the code's scaling function (identity when the code is not in the scaling
table) and rounds/truncates according to the input's raw type before
transmission; a boolean converts to raw `1`/`0` (spec §8 write scenario). -/
def toOriginalScale (i : NInput) (v : Val) : Val :=
  match toRatNum v with
  | none => v
  | some q =>
      let r := match scaleTable i.input.code with
        | none => q
        | some k => invScaleQ k q
      match valueType i.input with
      | some .pInt => .vInt (ratTrunc r)
      | some .pBool => .vInt (if pyBool v then 1 else 0)
      | some .pFloat => .vRat r
      | _ => v

/-- `FebosSession.set_value` (session.py lines 266-303): unknown key →
refusal (`none`) with no state change; transport error or non-zero vendor
`errCode` → refusal with no state change; `errCode` 0 → the converted raw
value is committed through the input's `value` setter and the full projection
is returned.  `Except.error` carries the session state at a raised
exception. -/
def sessionSetValue (s : Session) (key : String) (v : Val)
    (remote : RemoteResult) :
    Except Session (Session × Option (List (String × Option Val))) :=
  match s.inputs.find? (fun i => i.key == key) with
  | none => Except.ok (s, none)
  | some inp =>
      let raw := toOriginalScale inp v
      match s.groups.lookup inp.installation_id with
      | none => Except.error s
      | some _ =>
          match remote with
          | .transportError => Except.ok (s, none)
          | .response ec _ =>
              if ec ≠ 0 then Except.ok (s, none)
              else
                match setFirstBy (fun i => i.key == key) raw s.inputs with
                | Except.error _ => Except.error s
                | Except.ok none => Except.ok (s, none)
                | Except.ok (some inputs') =>
                    match projection inputs' with
                    | Except.error _ => Except.error { s with inputs := inputs' }
                    | Except.ok p =>
                        Except.ok ({ s with inputs := inputs' }, some p)

/-! ## Refresh coordinator (coordinator.py lines 46-68) -/

/-- Outcome of one `session.update()` attempt: success with a projection, an
`HTTPStatusError` with its status code, or some other exception. -/
inductive UpdOutcome where
  | ok (proj : List (String × Option Val))
  | httpError (status : Int)
  | exc
deriving DecidableEq, Repr

/-- Result of `FebosDataUpdateCoordinator.do_update`: success, a wrapped
`UpdateFailed`, or an exception propagating out of the handler itself. -/
inductive DoResult where
  | success (proj : List (String × Option Val))
  | updateFailed
  | raised
deriving DecidableEq, Repr

/-- A run of `do_update` together with how many `login` calls and update
retries it performed. -/
structure DoTrace where
  result : DoResult
  logins : Nat
  retries : Nat
deriving DecidableEq, Repr

/-- `FebosDataUpdateCoordinator.do_update` (coordinator.py lines 46-68):
a first update attempt; on `HTTPStatusError` with status 401, one `login`
followed by one retry of the update, whose failure propagates out of the
handler; any other failure becomes `UpdateFailed`. -/
def doUpdate (u1 : UpdOutcome) (login : Except Unit Unit) (u2 : UpdOutcome) :
    DoTrace :=
  match u1 with
  | .ok p => ⟨.success p, 0, 0⟩
  | .httpError st =>
      if st = 401 then
        match login with
        | Except.error _ => ⟨.raised, 1, 0⟩
        | Except.ok _ =>
            match u2 with
            | .ok p => ⟨.success p, 1, 1⟩
            | .httpError _ => ⟨.raised, 1, 1⟩
            | .exc => ⟨.raised, 1, 1⟩
      else ⟨.updateFailed, 0, 0⟩
  | .exc => ⟨.updateFailed, 0, 0⟩

/-! ## Concrete fixtures used by counterexamples and witnesses -/

/-- An `INT` input carrying a vendor default value. -/
def intDefaultInput : Input :=
  { code := "R9000", inputType := "INT", deviceId := 7, thingId := 9,
    defaultIntValue := some 5, category := "C_DATA", name := "Potenza",
    min := none, max := none }

/-- A bool-forced code (`R8648`) whose vendor type is `INT` with a default. -/
def forcedBoolIntInput : Input :=
  { code := "R8648", inputType := "INT", deviceId := 7, thingId := 9,
    defaultIntValue := some 1, category := "C_DATA", name := "Stagione",
    min := none, max := none }

/-- A presence-class boolean input (`R8673`) holding raw `True`. -/
def presenceNInput : NInput :=
  { key := "febos_1_7_9_R8673", installation_id := 1, thing_model_id := 3,
    input := { code := "R8673", inputType := "BOOL", deviceId := 7, thingId := 9,
               defaultIntValue := none, category := "C_DATA", name := "Presenza",
               min := none, max := none },
    value := some (Val.vBool true) }

instance {ε α : Type _} [DecidableEq ε] [DecidableEq α] :
    DecidableEq (Except ε α)
  | Except.ok a, Except.ok b =>
      if h : a = b then isTrue (by rw [h])
      else isFalse (by intro hh; cases hh; exact h rfl)
  | Except.ok _, Except.error _ => isFalse (by intro hh; cases hh)
  | Except.error _, Except.ok _ => isFalse (by intro hh; cases hh)
  | Except.error e, Except.error f =>
      if h : e = f then isTrue (by rw [h])
      else isFalse (by intro hh; cases hh; exact h rfl)

/-! ## C6 — boolean polarity in the read path -/

/-- A fresh `INT` input with no default, for the signalling scenario. -/
def scenInput0 : NInput :=
  NInput.init "k" 1 3 { intDefaultInput with defaultIntValue := none }

/-- The scenario input holding a given stored value. -/
def scenInputAt (v : Option Val) : NInput :=
  { scenInput0 with value := v }

/-- A writable switch-kind input, currently off. -/
def switchNInput : NInput :=
  { key := "febos_1_7_9_SW01", installation_id := 1, thing_model_id := 3,
    input := { code := "SW01", inputType := "BOOL", deviceId := 7, thingId := 9,
               defaultIntValue := none, category := "C_PARAMETER",
               name := "On/Off", min := none, max := none },
    value := some (Val.vBool false) }

/-- A one-installation session holding the switch fixture. -/
def sessW : Session :=
  { installations := [1], groups := [(1, ["G1"])], devices := [],
    inputs := [switchNInput] }

/-- A thing referencing device 7, which the bad-thing fixture leaves out of
its device map. -/
def orphanThing : ThingRec :=
  { id := 9, deviceId := 7, modelId := 3, modelCode := "MC", modelName := "MN" }

/-- An input entry referencing device 8, for which no thing registered a
device. -/
def orphanInputEntry : Input :=
  { code := "R0001", inputType := "INT", deviceId := 8, thingId := 9,
    defaultIntValue := none, category := "C_DATA", name := "X",
    min := none, max := none }

/-- Page config whose only thing has an unresolvable device id. -/
def cfgBadThing : PageConfig :=
  { thingMap := [orphanThing], deviceMap := [], groupCodes := [],
    inputsSeq := [] }

/-- Page config whose only input entry has an unregistered device/thing. -/
def cfgBadInput : PageConfig :=
  { thingMap := [orphanThing],
    deviceMap := [{ id := 7, tenantName := "T", code := "C", modelName := "MN" }],
    groupCodes := ["G1"], inputsSeq := [orphanInputEntry] }

/-- An undiscovered one-installation session. -/
def sessD : Session :=
  { installations := [1], groups := [], devices := [], inputs := [] }

/-- The immutable identity-and-classification part of a `NormalizedInput`
(everything except the stored value). -/
def identityOf (i : NInput) : String × Int × Int × Input :=
  (i.key, i.installation_id, i.thing_model_id, i.input)

/-- The input table carried by an update-loop outcome: the final table on
success, the table at the raise point on failure. -/
def updResultState : Except (List NInput) (List NInput × List Warning) → List NInput
  | Except.error st => st
  | Except.ok (inputs, _) => inputs

/-- A read-only `INT` telemetry input, not yet holding a value. -/
def i8 : NInput :=
  { key := "febos_1_7_9_R0001", installation_id := 1, thing_model_id := 3,
    input := { code := "R0001", inputType := "INT", deviceId := 7, thingId := 9,
               defaultIntValue := none, category := "C_DATA", name := "X",
               min := none, max := none },
    value := none }

/-- A one-installation session holding `i8`. -/
def s8 : Session :=
  { installations := [1], groups := [(1, ["G1"])], devices := [],
    inputs := [i8] }

/-- A realtime batch with one unknown tuple followed by one matching
tuple. -/
def fetch8 : Int → Except Unit (List RTEntry) :=
  fun _ => Except.ok [⟨7, 9, [("ZZZ", Val.vInt 3), ("R0001", Val.vInt 5)]⟩]

/-- A two-installation session holding `i8`, whose second realtime fetch
will fail. -/
def s0C3 : Session :=
  { installations := [1, 2], groups := [(1, ["G1"]), (2, ["G1"])],
    devices := [], inputs := [i8] }

/-- Realtime fetch succeeding for installation 1 and failing for
installation 2. -/
def fetchC3 : Int → Except Unit (List RTEntry) :=
  fun iid => if iid == 1 then Except.ok [⟨7, 9, [("R0001", Val.vInt 5)]⟩]
             else Except.error ()

/-! ## C9 — initial stored value -/

/-- C9 counterexample: at construction, before any realtime value, a
`NormalizedInput` for an `INT` input with `defaultIntValue = 5` stores `5`,
not `None`. -/
theorem initValue_default_counterexample :
    (NInput.init "febos_1_7_9_R9000" 1 3 intDefaultInput).value
      = some (Val.vInt 5) ∧
    (NInput.init "febos_1_7_9_R9000" 1 3 intDefaultInput).value ≠ none := by
  refine ⟨rfl, ?_⟩
  intro h
  simp [NInput.init, initValue, intDefaultInput] at h

/-- C9 (amended): at construction the stored value is `None`, unless the
input's vendor type is `INT` and it carries a non-`None` `defaultIntValue`,
in which case that integer default is stored. -/
theorem initValue_spec (k : String) (iid tmid : Int) (i : Input) :
    ((i.inputType ≠ "INT" ∨ i.defaultIntValue = none) →
      (NInput.init k iid tmid i).value = none)
    ∧ (∀ n : Int, i.inputType = "INT" → i.defaultIntValue = some n →
      (NInput.init k iid tmid i).value = some (Val.vInt n)) := by
  constructor
  · rintro (h | h) <;> simp [NInput.init, initValue, h]
  · intro n h1 h2
    simp [NInput.init, initValue, h1, h2]

/-- Witness for `initValue_spec` at concrete inputs: a `FLOAT` input starts
at `None`, and the `INT` fixture starts at its default `5`. -/
theorem initValue_spec_witness :
    (NInput.init "k" 1 3 { intDefaultInput with inputType := "FLOAT" }).value = none
    ∧ (NInput.init "k" 1 3 intDefaultInput).value = some (Val.vInt 5) := by
  constructor
  · exact (initValue_spec "k" 1 3 _).1 (Or.inl (by decide))
  · exact (initValue_spec "k" 1 3 intDefaultInput).2 5 rfl rfl

/-! ## C10 — value/type invariant -/

/-- C10 counterexample: the freshly-constructed state of a bool-forced code
(`R8648`) with vendor type `INT` and default `1` is reachable with a stored
value `1` that is not `None` and not an instance of its `value_type`
(`bool`). -/
theorem value_type_invariant_counterexample :
    valueType forcedBoolIntInput = some PyType.pBool
    ∧ (NInput.init "febos_1_7_9_R8648" 1 3 forcedBoolIntInput).value
        = some (Val.vInt 1)
    ∧ pyIsInstance (Val.vInt 1) PyType.pBool = false := by
  exact ⟨by decide, rfl, by decide⟩

/-- Conversion through a Python type constructor yields an instance of that
type. -/
theorem pyConvert_isInstance (t : PyType) (w cw : Val)
    (h : pyConvert t w = some cw) : pyIsInstance cw t = true := by
  cases t <;> cases w <;>
    simp only [pyConvert, Option.map_eq_some'] at h <;>
    first
      | (cases h; rfl)
      | (obtain ⟨n, -, rfl⟩ := h; rfl)

/-- C10 (amended): every successful assignment through the `value` setter
re-establishes the invariant — afterwards the stored value is `None` or an
instance of the input's `value_type`; a failed assignment leaves the object
unchanged (the setter errors without producing a new state).  Only the
pristine constructed state can violate the invariant, as
`value_type_invariant_counterexample` shows. -/
theorem setValue_type_invariant (i : NInput) (v : Option Val)
    (i' : NInput) (sig : Bool) (h : setValue i v = Except.ok (i', sig)) :
    i'.value = none
    ∨ ∃ w t, i'.value = some w ∧ valueType i'.input = some t
        ∧ pyIsInstance w t = true := by
  cases v with
  | none =>
      simp only [setValue, Except.ok.injEq, Prod.mk.injEq] at h
      left
      rw [← h.1]
  | some w =>
      simp only [setValue] at h
      split at h
      · exact absurd h (by simp)
      · rename_i vt hvt
        split at h
        · exact absurd h (by simp)
        · rename_i cw hcw
          simp only [Except.ok.injEq, Prod.mk.injEq] at h
          right
          refine ⟨cw, vt, ?_, ?_, pyConvert_isInstance vt w cw hcw⟩
          · rw [← h.1]
          · rw [← h.1]; exact hvt

/-- Witness for `setValue_type_invariant`: assigning raw `1` to the fixture
whose `value_type` is forced to `bool` stores `True`, an instance of
`bool`. -/
theorem setValue_type_invariant_witness :
    setValue (NInput.init "k" 1 3 forcedBoolIntInput) (some (Val.vInt 1))
      = Except.ok ({ NInput.init "k" 1 3 forcedBoolIntInput with
                      value := some (Val.vBool true) }, false)
    ∧ (({ NInput.init "k" 1 3 forcedBoolIntInput with
            value := some (Val.vBool true) } : NInput).value = none
       ∨ ∃ w t,
           ({ NInput.init "k" 1 3 forcedBoolIntInput with
               value := some (Val.vBool true) } : NInput).value = some w
           ∧ valueType ({ NInput.init "k" 1 3 forcedBoolIntInput with
               value := some (Val.vBool true) } : NInput).input = some t
           ∧ pyIsInstance w t = true) := by
  have h : setValue (NInput.init "k" 1 3 forcedBoolIntInput) (some (Val.vInt 1))
      = Except.ok ({ NInput.init "k" 1 3 forcedBoolIntInput with
                      value := some (Val.vBool true) }, false) := by rfl
  exact ⟨h, setValue_type_invariant _ _ _ _ h⟩

/-- C6 counterexample: `R8673` has device class `presence`, holds raw
`True`, and the read path displays `True` — not the negation the claim
requires for presence-class inputs. -/
theorem presence_not_inverted_counterexample :
    bsClassTable "R8673" = some BSClass.presence
    ∧ presenceNInput.value = some (Val.vBool true)
    ∧ binarySensorNormalizedValue presenceNInput = Except.ok (some true)
    ∧ Except.ok (some true) ≠
        (Except.ok (some (!true)) : Except Unit (Option Bool)) := by
  refine ⟨by decide, rfl, by rfl, by decide⟩

/-- C6 (amended): in the read path, only the `cold` device class negates the
raw boolean; every other class — including `presence` — displays
`bool(value)` unchanged. -/
theorem binary_sensor_polarity (i : NInput) (c : BSClass) (v : Val)
    (hc : bsClassTable i.input.code = some c) (hv : i.value = some v) :
    binarySensorNormalizedValue i =
      Except.ok (some (if c = BSClass.cold then !pyBool v else pyBool v)) := by
  unfold binarySensorNormalizedValue
  rw [hv, hc]
  by_cases h : c = BSClass.cold <;> simp [h]

/-- Witness for `binary_sensor_polarity`: the presence fixture displays its
raw `True`; the same input under the cold code `R8648` displays `False`. -/
theorem binary_sensor_polarity_witness :
    binarySensorNormalizedValue presenceNInput = Except.ok (some true)
    ∧ binarySensorNormalizedValue
        { presenceNInput with
          input := { presenceNInput.input with code := "R8648" } }
      = Except.ok (some false) := by
  constructor
  · have := binary_sensor_polarity presenceNInput BSClass.presence
      (Val.vBool true) (by decide) rfl
    simpa using this
  · have := binary_sensor_polarity
      { presenceNInput with
        input := { presenceNInput.input with code := "R8648" } }
      BSClass.cold (Val.vBool true) (by decide) rfl
    simpa using this

/-! ## C4 — value assignment and change signalling -/

/-- C4: the `value` setter stores `None` unconverted, converts any other
value with the input's `value_type` before storing it, and the change
notification fires exactly when the stored result differs (Python `!=`) from
the previously stored value — so at most once per call, never on an
equal-value assignment, and on both `None → value` and `value → None`
transitions. -/
theorem setValue_signal_spec (i : NInput) (v : Option Val)
    (i' : NInput) (sig : Bool) (h : setValue i v = Except.ok (i', sig)) :
    (v = none → i'.value = none)
    ∧ (∀ w, v = some w → ∃ vt cw, valueType i.input = some vt
        ∧ pyConvert vt w = some cw ∧ i'.value = some cw)
    ∧ (sig = !optPyEq i.value i'.value) := by
  cases v with
  | none =>
      simp only [setValue, Except.ok.injEq, Prod.mk.injEq] at h
      refine ⟨fun _ => ?_, ?_, ?_⟩
      · rw [← h.1]
      · intro w hw
        exact absurd hw (by simp)
      · rw [← h.2, ← h.1]
  | some w =>
      simp only [setValue] at h
      split at h
      · exact absurd h (by simp)
      · rename_i vt hvt
        split at h
        · exact absurd h (by simp)
        · rename_i cw hcw
          simp only [Except.ok.injEq, Prod.mk.injEq] at h
          refine ⟨?_, ?_, ?_⟩
          · intro hn
            exact absurd hn (by simp)
          · intro w' hw'
            cases hw'
            exact ⟨vt, cw, hvt, hcw, by rw [← h.1]⟩
          · rw [← h.2, ← h.1]

/-- Witness for `setValue_signal_spec`, running the spec's scenario on an
`INT` input: `None→5` signals, `5→7` signals, `7→7` does not, `7→None`
signals. -/
theorem setValue_signal_spec_witness :
    setValue scenInput0 (some (Val.vInt 5))
      = Except.ok (scenInputAt (some (Val.vInt 5)), true)
    ∧ setValue (scenInputAt (some (Val.vInt 5))) (some (Val.vInt 7))
      = Except.ok (scenInputAt (some (Val.vInt 7)), true)
    ∧ setValue (scenInputAt (some (Val.vInt 7))) (some (Val.vInt 7))
      = Except.ok (scenInputAt (some (Val.vInt 7)), false)
    ∧ setValue (scenInputAt (some (Val.vInt 7))) none
      = Except.ok (scenInputAt none, true)
    ∧ (∀ i' sg, setValue scenInput0 (some (Val.vInt 5)) = Except.ok (i', sg) →
        sg = !optPyEq scenInput0.value i'.value) := by
  refine ⟨by rfl, by rfl, by rfl, by rfl, ?_⟩
  intro i' sg h
  exact (setValue_signal_spec _ _ _ _ h).2.2

/-! ## C7 — single re-login and retry on unauthorized -/

/-- C7: `do_update` performs at most one re-login; on an `HTTPStatusError`
with status 401 followed by a successful login it performs exactly one
re-login and exactly one retry, whose success becomes the refresh result and
whose failure is surfaced as a refresh failure; a non-401 HTTP failure or any
other first-attempt failure triggers no re-login at all. -/
theorem doUpdate_single_relogin (u1 : UpdOutcome) (l : Except Unit Unit)
    (u2 : UpdOutcome) :
    (doUpdate u1 l u2).logins ≤ 1
    ∧ (u1 = UpdOutcome.httpError 401 → l = Except.ok () →
        (doUpdate u1 l u2).logins = 1 ∧ (doUpdate u1 l u2).retries = 1
        ∧ (∀ p, u2 = UpdOutcome.ok p →
            (doUpdate u1 l u2).result = DoResult.success p)
        ∧ ((u2 = UpdOutcome.exc ∨ ∃ st, u2 = UpdOutcome.httpError st) →
            (doUpdate u1 l u2).result = DoResult.raised))
    ∧ (∀ st, u1 = UpdOutcome.httpError st → st ≠ 401 →
        (doUpdate u1 l u2).logins = 0
        ∧ (doUpdate u1 l u2).result = DoResult.updateFailed)
    ∧ (u1 = UpdOutcome.exc →
        (doUpdate u1 l u2).logins = 0
        ∧ (doUpdate u1 l u2).result = DoResult.updateFailed) := by
  refine ⟨?_, ?_, ?_, ?_⟩
  · cases u1 with
    | ok p => simp [doUpdate]
    | exc => simp [doUpdate]
    | httpError st =>
        by_cases hst : st = 401
        · subst hst
          cases l with
          | error e => simp [doUpdate]
          | ok a => cases u2 <;> simp [doUpdate]
        · simp [doUpdate, hst]
  · rintro rfl rfl
    cases u2 <;> simp [doUpdate]
  · rintro st rfl hst
    simp [doUpdate, hst]
  · rintro rfl
    simp [doUpdate]

/-- Witness for `doUpdate_single_relogin`: a 401 first attempt, a successful
login, and a successful retry produce a success with exactly one login and
one retry; a 500 first attempt fails without any login. -/
theorem doUpdate_single_relogin_witness :
    doUpdate (UpdOutcome.httpError 401) (Except.ok ()) (UpdOutcome.ok [])
      = ⟨DoResult.success [], 1, 1⟩
    ∧ doUpdate (UpdOutcome.httpError 500) (Except.ok ()) (UpdOutcome.ok [])
      = ⟨DoResult.updateFailed, 0, 0⟩
    ∧ (doUpdate (UpdOutcome.httpError 401) (Except.ok ())
        (UpdOutcome.httpError 401)).result = DoResult.raised := by
  refine ⟨by rfl, by rfl, ?_⟩
  exact ((doUpdate_single_relogin _ _ _).2.1 rfl rfl).2.2.2
    (Or.inr ⟨401, rfl⟩)

/-! ## C2 — write-path scaling is the exact inverse of read-path scaling -/

theorem ratTrunc_intCast (n : Int) : ratTrunc (n : ℚ) = n := by
  unfold ratTrunc
  split
  · exact Int.floor_intCast n
  · exact Int.ceil_intCast n

theorem scaleTable_boolForced_none :
    ∀ c ∈ boolForcedCodes, scaleTable c = none := by decide

theorem int16_emod (x : Int) (h0 : 0 ≤ x) (h1 : x < 65536) :
    int16 x % 65536 = x := by
  unfold int16
  split <;> omega

/-- Each scaling function's write-path inverse recovers the integer raw
value exactly; the two's complement kinds need the raw value in the unsigned
16-bit domain. -/
theorem invScale_applyScale (k : ScaleKind) (x : Int)
    (hx : k = ScaleKind.ctwo ∨ k = ScaleKind.ctwoThousand →
      0 ≤ x ∧ x < 65536) :
    invScaleQ k (applyScaleQ k (x : ℚ)) = (x : ℚ) := by
  cases k with
  | tenth =>
      simp only [applyScaleQ, invScaleQ]
      exact div_mul_cancel₀ _ (by norm_num)
  | hundred =>
      simp only [applyScaleQ, invScaleQ]
      exact div_mul_cancel₀ _ (by norm_num)
  | thousand =>
      simp only [applyScaleQ, invScaleQ]
      exact div_mul_cancel₀ _ (by norm_num)
  | byTen =>
      simp only [applyScaleQ, invScaleQ]
      exact mul_div_cancel_right₀ _ (by norm_num)
  | bySixty =>
      simp only [applyScaleQ, invScaleQ]
      exact mul_div_cancel_right₀ _ (by norm_num)
  | ctwo =>
      obtain ⟨h0, h1⟩ := hx (Or.inl rfl)
      simp only [applyScaleQ, invScaleQ]
      rw [ratTrunc_intCast x, ratTrunc_intCast, int16_emod x h0 h1]
  | ctwoThousand =>
      obtain ⟨h0, h1⟩ := hx (Or.inr rfl)
      simp only [applyScaleQ, invScaleQ]
      rw [ratTrunc_intCast x,
          div_mul_cancel₀ _ (by norm_num : (1000 : ℚ) ≠ 0),
          ratTrunc_intCast, int16_emod x h0 h1]

/-- C2: for every code in the scaling table, reading an integer raw value
through `_scaled_value` and writing the displayed value back through
`to_original_scale` recovers the raw value exactly — for every raw integer
(any sign) on the linear codes, and for every unsigned 16-bit raw value
(including the boundary encodings 32767 and 65535) on the two's complement
codes. -/
theorem scale_roundtrip (i : NInput) (c : String) (k : ScaleKind) (x : Int)
    (hk : scaleTable c = some k) (hc : i.input.code = c)
    (ht : i.input.inputType = "INT") (hv : i.value = some (Val.vInt x))
    (hx : k = ScaleKind.ctwo ∨ k = ScaleKind.ctwoThousand →
      0 ≤ x ∧ x < 65536) :
    scaledValue i = Except.ok (some (Val.vRat (applyScaleQ k (x : ℚ))))
    ∧ toOriginalScale i (Val.vRat (applyScaleQ k (x : ℚ))) = Val.vInt x := by
  have hkc : scaleTable i.input.code = some k := by rw [hc]; exact hk
  have hnf : i.input.code ∉ boolForcedCodes := by
    intro hmem
    have hnone := scaleTable_boolForced_none _ hmem
    rw [hkc] at hnone
    cases hnone
  have hvt : valueType i.input = some PyType.pInt := by
    unfold valueType
    rw [if_neg hnf, ht]
    rfl
  constructor
  · unfold scaledValue
    rw [hv, hkc]
    rfl
  · unfold toOriginalScale
    simp only [toRatNum, hkc, hvt]
    rw [invScale_applyScale k x hx, ratTrunc_intCast x]

/-- Witness for `scale_roundtrip` at the spec's own scenario: code `R8002`
(two's complement, divide by 1000) with raw 65535 reads as `-0.001` and
writes back to raw 65535. -/
theorem scale_roundtrip_witness :
    applyScaleQ ScaleKind.ctwoThousand ((65535 : Int) : ℚ) = -1 / 1000
    ∧ scaledValue (scenInputAt (some (Val.vInt 65535))
        |> fun j => { j with input := { j.input with code := "R8002" } })
      = Except.ok (some (Val.vRat (applyScaleQ ScaleKind.ctwoThousand
          ((65535 : Int) : ℚ))))
    ∧ toOriginalScale (scenInputAt (some (Val.vInt 65535))
        |> fun j => { j with input := { j.input with code := "R8002" } })
        (Val.vRat (applyScaleQ ScaleKind.ctwoThousand ((65535 : Int) : ℚ)))
      = Val.vInt 65535 := by
  have h := scale_roundtrip
    (scenInputAt (some (Val.vInt 65535))
      |> fun j => { j with input := { j.input with code := "R8002" } })
    "R8002" ScaleKind.ctwoThousand 65535 (by decide) rfl rfl rfl
    (fun _ => by constructor <;> norm_num)
  refine ⟨?_, h.1, h.2⟩
  simp only [applyScaleQ]
  rw [ratTrunc_intCast]
  norm_num [int16]

/-! ## C1 — write-path refusal and commit semantics -/

/-- The `value` setter only rewrites the stored value; identity and
classification fields are untouched. -/
theorem setValue_fields (i : NInput) (v : Option Val) (i' : NInput)
    (sig : Bool) (h : setValue i v = Except.ok (i', sig)) :
    i'.key = i.key ∧ i'.installation_id = i.installation_id
    ∧ i'.thing_model_id = i.thing_model_id ∧ i'.input = i.input := by
  cases v with
  | none =>
      simp only [setValue, Except.ok.injEq, Prod.mk.injEq] at h
      rw [← h.1]
      exact ⟨rfl, rfl, rfl, rfl⟩
  | some w =>
      simp only [setValue] at h
      split at h
      · exact absurd h (by simp)
      · split at h
        · exact absurd h (by simp)
        · simp only [Except.ok.injEq, Prod.mk.injEq] at h
          rw [← h.1]
          exact ⟨rfl, rfl, rfl, rfl⟩

/-- A successful `setFirstBy` on a key predicate updates exactly the input
found for that key, and the updated object is found at the same key
afterwards. -/
theorem setFirstBy_find (key : String) (raw : Val) :
    ∀ inputs inputs' : List NInput,
    setFirstBy (fun i => i.key == key) raw inputs
      = Except.ok (some inputs') →
    ∃ i0 i' sig,
      inputs.find? (fun i => i.key == key) = some i0
      ∧ setValue i0 (some raw) = Except.ok (i', sig)
      ∧ inputs'.find? (fun i => i.key == key) = some i' := by
  intro inputs
  induction inputs with
  | nil => intro inputs' h; cases h
  | cons i rest ih =>
      intro inputs' h
      simp only [setFirstBy] at h
      by_cases hp : i.key == key
      · rw [if_pos hp] at h
        cases hset : setValue i (some raw) with
        | error e => rw [hset] at h; cases h
        | ok r =>
            rw [hset] at h
            simp only [Except.map, Except.ok.injEq, Option.some.injEq] at h
            refine ⟨i, r.1, r.2, ?_, by rw [hset], ?_⟩
            · exact List.find?_cons_of_pos _ hp
            · have hk := (setValue_fields i (some raw) r.1 r.2 (by rw [hset])).1
              rw [← h]
              exact List.find?_cons_of_pos _ (by rw [hk]; exact hp)
      · rw [if_neg hp] at h
        cases hrest : setFirstBy (fun i => i.key == key) raw rest with
        | error e => rw [hrest] at h; cases h
        | ok o =>
            rw [hrest] at h
            cases o with
            | none => simp [Except.map] at h
            | some rest' =>
                simp only [Except.map, Except.ok.injEq, Option.map_some',
                  Option.some.injEq] at h
                obtain ⟨i0, i', sig, h1, h2, h3⟩ := ih rest' (by rw [hrest])
                refine ⟨i0, i', sig, ?_, h2, ?_⟩
                · rw [@List.find?_cons_of_neg _ (fun j => j.key == key) i rest hp]
                  exact h1
                · rw [← h,
                    @List.find?_cons_of_neg _ (fun j => j.key == key) i rest' hp]
                  exact h3

/-- C1: `set_value` refuses (`None` result, session untouched) when the key
is unknown, when the transport call fails, or when the vendor responds with a
non-zero `errCode`; only on `errCode` 0 is the converted raw value committed
through the target input's `value` setter, and the full key → normalized
value projection of the updated session returned. -/
theorem set_value_refusal_commit (s : Session) (key : String) (v : Val)
    (remote : RemoteResult) :
    (s.inputs.find? (fun i => i.key == key) = none →
      sessionSetValue s key v remote = Except.ok (s, none))
    ∧ (∀ inp, s.inputs.find? (fun i => i.key == key) = some inp →
        (s.groups.lookup inp.installation_id).isSome = true →
        (remote = RemoteResult.transportError ∨
         ∃ ec msg, remote = RemoteResult.response ec msg ∧ ec ≠ 0) →
        sessionSetValue s key v remote = Except.ok (s, none))
    ∧ (∀ inp msg inputs' p,
        s.inputs.find? (fun i => i.key == key) = some inp →
        (s.groups.lookup inp.installation_id).isSome = true →
        remote = RemoteResult.response 0 msg →
        setFirstBy (fun i => i.key == key) (toOriginalScale inp v) s.inputs
          = Except.ok (some inputs') →
        projection inputs' = Except.ok p →
        sessionSetValue s key v remote
          = Except.ok ({ s with inputs := inputs' }, some p)
        ∧ ∃ i0 i' sig,
            s.inputs.find? (fun i => i.key == key) = some i0
            ∧ setValue i0 (some (toOriginalScale inp v))
                = Except.ok (i', sig)
            ∧ inputs'.find? (fun i => i.key == key) = some i') := by
  refine ⟨?_, ?_, ?_⟩
  · intro hfind
    simp only [sessionSetValue, hfind]
  · intro inp hfind hg hremote
    obtain ⟨g, hg'⟩ := Option.isSome_iff_exists.mp hg
    rcases hremote with rfl | ⟨ec, msg, rfl, hec⟩
    · simp only [sessionSetValue, hfind, hg']
    · simp only [sessionSetValue, hfind, hg', if_pos hec]
  · intro inp msg inputs' p hfind hg hremote hset hproj
    subst hremote
    constructor
    · obtain ⟨g, hg'⟩ := Option.isSome_iff_exists.mp hg
      simp only [sessionSetValue, hfind, hg', hset, hproj, ne_eq,
        not_true_eq_false, if_false, ite_false]
    · exact setFirstBy_find key (toOriginalScale inp v) s.inputs inputs' hset

/-- Witness for `set_value_refusal_commit`, running the spec's write
scenario: unknown key, `errCode` 5 and transport error all refuse leaving the
session untouched; `errCode` 0 with value `true` commits raw `1` (stored back
as `True`) and returns the full projection. -/
theorem set_value_refusal_commit_witness :
    sessionSetValue sessW "nokey" (Val.vBool true) (RemoteResult.response 0 "")
      = Except.ok (sessW, none)
    ∧ sessionSetValue sessW "febos_1_7_9_SW01" (Val.vBool true)
        (RemoteResult.response 5 "err") = Except.ok (sessW, none)
    ∧ sessionSetValue sessW "febos_1_7_9_SW01" (Val.vBool true)
        RemoteResult.transportError = Except.ok (sessW, none)
    ∧ sessionSetValue sessW "febos_1_7_9_SW01" (Val.vBool true)
        (RemoteResult.response 0 "")
      = Except.ok ({ sessW with inputs := [{ switchNInput with
            value := some (Val.vBool true) }] },
          some [("febos_1_7_9_SW01", some (Val.vBool true))]) := by
  refine ⟨?_, ?_, ?_, ?_⟩
  · exact (set_value_refusal_commit sessW "nokey" (Val.vBool true)
      (RemoteResult.response 0 "")).1 (by rfl)
  · exact (set_value_refusal_commit sessW "febos_1_7_9_SW01" (Val.vBool true)
      (RemoteResult.response 5 "err")).2.1 switchNInput (by rfl) (by rfl)
      (Or.inr ⟨5, "err", rfl, by decide⟩)
  · exact (set_value_refusal_commit sessW "febos_1_7_9_SW01" (Val.vBool true)
      RemoteResult.transportError).2.1 switchNInput (by rfl) (by rfl)
      (Or.inl rfl)
  · exact ((set_value_refusal_commit sessW "febos_1_7_9_SW01" (Val.vBool true)
      (RemoteResult.response 0 "")).2.2 switchNInput ""
      [{ switchNInput with value := some (Val.vBool true) }]
      [("febos_1_7_9_SW01", some (Val.vBool true))]
      (by rfl) (by rfl) rfl (by rfl) (by rfl)).1

/-! ## C5 — discovery fails loudly on unresolved device ids -/

theorem lookup_some_mem {α β : Type _} [BEq α] [LawfulBEq α]
    (l : List (α × β)) (a : α) (b : β) (h : l.lookup a = some b) :
    (a, b) ∈ l := by
  induction l with
  | nil => cases h
  | cons e rest ih =>
      simp only [List.lookup] at h
      split at h
      · rename_i heq
        cases h
        have ha : a = e.1 := eq_of_beq heq
        have hpe : (a, e.2) = e := by rw [ha]
        rw [hpe]
        exact List.mem_cons_self e rest
      · exact List.mem_cons_of_mem e (ih h)

/-- If some thing's `deviceId` is absent from the device map, the thing walk
raises (provided every already-registered entry resolved, as holds from the
empty accumulator). -/
theorem discoverThings_error (iid : Int) (dm : List DeviceRec) (t : ThingRec)
    (hnone : dm.find? (fun d => d.id == t.deviceId) = none) :
    ∀ ts acc, t ∈ ts →
    (∀ e ∈ acc, (dm.find? (fun d => d.id == e.1.1)).isSome = true) →
    discoverThings iid dm ts acc = Except.error () := by
  intro ts
  induction ts with
  | nil => intro acc hmem _; cases hmem
  | cons t' ts ih =>
      intro acc hmem hacc
      simp only [discoverThings]
      by_cases hskip : (acc.lookup (t'.deviceId, t'.id)).isSome = true
      · rw [if_pos hskip]
        rcases List.mem_cons.mp hmem with rfl | hmem'
        · obtain ⟨di, hdi⟩ := Option.isSome_iff_exists.mp hskip
          have hmemE := lookup_some_mem acc _ di hdi
          have := hacc _ hmemE
          rw [hnone] at this
          cases this
        · exact ih acc hmem' hacc
      · rw [if_neg hskip]
        cases hfd : dm.find? (fun d => d.id == t'.deviceId) with
        | none => rfl
        | some d =>
            rcases List.mem_cons.mp hmem with rfl | hmem'
            · rw [hnone] at hfd; cases hfd
            · refine ih _ hmem' ?_
              intro e he
              rcases List.mem_append.mp he with he' | he'
              · exact hacc _ he'
              · simp only [List.mem_singleton] at he'
                rw [he']
                rw [hfd]
                rfl

/-- If some input entry's `(deviceId, thingId)` has no registered device, the
input walk raises (provided every already-created input resolved, as holds
from the empty accumulator). -/
theorem discoverInputs_error (iid : Int) (cfg : PageConfig)
    (devs : List ((Int × Int) × DeviceInfoRec)) (ie : Input)
    (hnone : devs.lookup (ie.deviceId, ie.thingId) = none) :
    ∀ ins acc, ie ∈ ins →
    (∀ i ∈ acc,
      (devs.lookup (i.input.deviceId, i.input.thingId)).isSome = true) →
    discoverInputs iid cfg devs ins acc = Except.error () := by
  intro ins
  induction ins with
  | nil => intro acc hmem _; cases hmem
  | cons je rest ih =>
      intro acc hmem hacc
      simp only [discoverInputs]
      by_cases hskip : (acc.any (fun i =>
          i.input.deviceId == je.deviceId && i.input.thingId == je.thingId &&
          i.input.code == je.code)) = true
      · rw [if_pos hskip]
        rcases List.mem_cons.mp hmem with rfl | hmem'
        · obtain ⟨i, hiMem, hiEq⟩ := List.any_eq_true.mp hskip
          have hd := (Bool.and_eq_true _ _).mp hiEq
          have hdt := (Bool.and_eq_true _ _).mp hd.1
          have h1 : i.input.deviceId = ie.deviceId := eq_of_beq hdt.1
          have h2 : i.input.thingId = ie.thingId := eq_of_beq hdt.2
          have hl := hacc _ hiMem
          rw [h1, h2, hnone] at hl
          cases hl
        · exact ih acc hmem' hacc
      · rw [if_neg hskip]
        cases hld : devs.lookup (je.deviceId, je.thingId) with
        | none => rfl
        | some di =>
            rcases List.mem_cons.mp hmem with rfl | hmem'
            · rw [hnone] at hld; cases hld
            · cases htm : cfg.thingMap.find? (fun t => t.id == je.thingId) with
              | none => rfl
              | some th =>
                  refine ih _ hmem' ?_
                  intro i hi
                  rcases List.mem_append.mp hi with hi' | hi'
                  · exact hacc _ hi'
                  · simp only [List.mem_singleton] at hi'
                    rw [hi']
                    simp only [NInput.init]
                    rw [hld]
                    rfl

theorem discoverOne_error_thing (iid : Int) (cfg : PageConfig) (t : ThingRec)
    (ht : t ∈ cfg.thingMap)
    (hnone : cfg.deviceMap.find? (fun d => d.id == t.deviceId) = none) :
    discoverOne iid cfg = Except.error () := by
  unfold discoverOne
  rw [discoverThings_error iid cfg.deviceMap t hnone cfg.thingMap []
    ht (by intro e he; cases he)]
  rfl

theorem discoverOne_error_input (iid : Int) (cfg : PageConfig)
    (devs : List ((Int × Int) × DeviceInfoRec)) (ie : Input)
    (hdevs : discoverThings iid cfg.deviceMap cfg.thingMap [] = Except.ok devs)
    (hie : ie ∈ cfg.inputsSeq)
    (hnone : devs.lookup (ie.deviceId, ie.thingId) = none) :
    discoverOne iid cfg = Except.error () := by
  unfold discoverOne
  simp only [hdevs, bind, Except.bind,
    discoverInputs_error iid cfg devs ie hnone cfg.inputsSeq []
      hie (by intro i hi; cases hi)]

theorem discoverAll_error (pages : Int → Except Unit PageConfig) (iid : Int)
    (cfg : PageConfig) (hcfg : pages iid = Except.ok cfg)
    (herr : discoverOne iid cfg = Except.error ()) :
    ∀ insts, iid ∈ insts → discoverAll pages insts = Except.error () := by
  intro insts
  induction insts with
  | nil => intro hmem; cases hmem
  | cons j rest ih =>
      intro hmem
      simp only [discoverAll, bind, Except.bind]
      by_cases hj : j = iid
      · subst hj
        simp only [hcfg, herr]
      · cases hpj : pages j with
        | error e => rfl
        | ok cfgj =>
            cases hone : discoverOne j cfgj with
            | error e => cases e; simp only [hone]
            | ok triple =>
                have hmem' : iid ∈ rest := by
                  rcases List.mem_cons.mp hmem with rfl | h
                  · exact absurd rfl hj
                  · exact h
                simp only [hone, ih hmem']

/-- C5: discovery fails loudly — if any successfully-fetched installation
configuration contains a thing whose `deviceId` is not in the device map, or
an input entry whose `(deviceId, thingId)` did not get a device registered by
the thing walk, `discover` raises and commits nothing. -/
theorem discover_fails_loudly (s : Session)
    (pages : Int → Except Unit PageConfig) (iid : Int) (cfg : PageConfig)
    (hmem : iid ∈ s.installations) (hcfg : pages iid = Except.ok cfg) :
    (∀ t, t ∈ cfg.thingMap →
      cfg.deviceMap.find? (fun d => d.id == t.deviceId) = none →
      discover s pages = Except.error s)
    ∧ (∀ devs ie,
        discoverThings iid cfg.deviceMap cfg.thingMap [] = Except.ok devs →
        ie ∈ cfg.inputsSeq →
        devs.lookup (ie.deviceId, ie.thingId) = none →
        discover s pages = Except.error s) := by
  constructor
  · intro t ht hnone
    unfold discover
    rw [discoverAll_error pages iid cfg hcfg
      (discoverOne_error_thing iid cfg t ht hnone) s.installations hmem]
  · intro devs ie hdevs hie hnone
    unfold discover
    rw [discoverAll_error pages iid cfg hcfg
      (discoverOne_error_input iid cfg devs ie hdevs hie hnone)
      s.installations hmem]

/-- Witness for `discover_fails_loudly`: both the orphan thing and the
orphan input make `discover` raise with the session untouched. -/
theorem discover_fails_loudly_witness :
    discover sessD (fun _ => Except.ok cfgBadThing) = Except.error sessD
    ∧ discover sessD (fun _ => Except.ok cfgBadInput) = Except.error sessD := by
  constructor
  · exact (discover_fails_loudly sessD (fun _ => Except.ok cfgBadThing) 1
      cfgBadThing (by decide) rfl).1 orphanThing (by decide) (by rfl)
  · exact (discover_fails_loudly sessD (fun _ => Except.ok cfgBadInput) 1
      cfgBadInput (by decide) rfl).2 _ orphanInputEntry (by rfl) (by decide)
      (by rfl)

/-! ## C8 / C3 — update-engine behaviour -/

theorem setFirstBy_none (p : NInput → Bool) (v : Val) :
    ∀ inputs : List NInput, inputs.find? p = none →
    setFirstBy p v inputs = Except.ok none := by
  intro inputs
  induction inputs with
  | nil => intro _; rfl
  | cons i rest ih =>
      intro hfind
      have hp : p i = false := by
        cases hpi : p i
        · rfl
        · rw [List.find?_cons_of_pos _ hpi] at hfind; cases hfind
      rw [List.find?_cons_of_neg _ (by rw [hp]; simp)] at hfind
      simp only [setFirstBy, hp, Bool.false_eq_true, if_false, ite_false]
      rw [ih hfind]
      rfl

theorem setFirstBy_identity (p : NInput → Bool) (v : Val) :
    ∀ inputs inputs' : List NInput,
    setFirstBy p v inputs = Except.ok (some inputs') →
    inputs'.map identityOf = inputs.map identityOf := by
  intro inputs
  induction inputs with
  | nil => intro inputs' h; cases h
  | cons i rest ih =>
      intro inputs' h
      simp only [setFirstBy] at h
      by_cases hp : p i = true
      · rw [if_pos hp] at h
        cases hset : setValue i (some v) with
        | error e => rw [hset] at h; cases h
        | ok r =>
            rw [hset] at h
            simp only [Except.map, Except.ok.injEq, Option.some.injEq] at h
            obtain ⟨hk, hi, ht, hin⟩ := setValue_fields i (some v) r.1 r.2
              (by rw [hset])
            rw [← h]
            simp only [List.map_cons, List.cons.injEq]
            exact ⟨by simp only [identityOf, hk, hi, ht, hin], trivial⟩
      · rw [if_neg hp] at h
        cases hrest : setFirstBy p v rest with
        | error e => rw [hrest] at h; cases h
        | ok o =>
            rw [hrest] at h
            cases o with
            | none => simp [Except.map] at h
            | some rest' =>
                simp only [Except.map, Except.ok.injEq, Option.map_some',
                  Option.some.injEq] at h
                rw [← h]
                simp only [List.map_cons, List.cons.injEq]
                exact ⟨trivial, ih rest' (by rw [hrest])⟩

theorem updateTuple_identity (iid dev th : Int) (code : String) (v : Val)
    (inputs : List NInput) (ws : List Warning) :
    (updResultState (updateTuple iid dev th code v inputs ws)).map identityOf
      = inputs.map identityOf := by
  unfold updateTuple
  cases hsfb : setFirstBy (isMatchFor iid dev th code) v inputs with
  | error e => rfl
  | ok o =>
      cases o with
      | none => rfl
      | some inputs' =>
          simp only [updResultState]
          exact setFirstBy_identity _ v inputs inputs' hsfb

theorem updateData_identity (iid dev th : Int) :
    ∀ (items : List (String × Val)) (inputs : List NInput) (ws : List Warning),
    (updResultState (updateData iid dev th items inputs ws)).map identityOf
      = inputs.map identityOf := by
  intro items
  induction items with
  | nil => intro inputs ws; rfl
  | cons item rest ih =>
      intro inputs ws
      simp only [updateData]
      cases htup : updateTuple iid dev th item.1 item.2 inputs ws with
      | error st =>
          have := updateTuple_identity iid dev th item.1 item.2 inputs ws
          rw [htup] at this
          exact this
      | ok r =>
          have h1 := updateTuple_identity iid dev th item.1 item.2 inputs ws
          rw [htup] at h1
          rw [ih r.1 r.2]
          exact h1

theorem updateEntries_identity (iid : Int) :
    ∀ (entries : List RTEntry) (inputs : List NInput) (ws : List Warning),
    (updResultState (updateEntries iid entries inputs ws)).map identityOf
      = inputs.map identityOf := by
  intro entries
  induction entries with
  | nil => intro inputs ws; rfl
  | cons e rest ih =>
      intro inputs ws
      simp only [updateEntries]
      cases hdat : updateData iid e.deviceId e.thingId e.data inputs ws with
      | error st =>
          have := updateData_identity iid e.deviceId e.thingId e.data inputs ws
          rw [hdat] at this
          exact this
      | ok r =>
          have h1 := updateData_identity iid e.deviceId e.thingId e.data inputs ws
          rw [hdat] at h1
          rw [ih r.1 r.2]
          exact h1

theorem updateAll_identity (groups : List (Int × List String))
    (fetch : Int → Except Unit (List RTEntry)) :
    ∀ (insts : List Int) (inputs : List NInput) (ws : List Warning),
    (updResultState (updateAll groups fetch insts inputs ws)).map identityOf
      = inputs.map identityOf := by
  intro insts
  induction insts with
  | nil => intro inputs ws; rfl
  | cons iid rest ih =>
      intro inputs ws
      cases hg : groups.lookup iid with
      | none => simp only [updateAll, hg]; rfl
      | some g =>
          cases hf : fetch iid with
          | error e => simp only [updateAll, hg, hf]; rfl
          | ok entries =>
              cases hent : updateEntries iid entries inputs ws with
              | error st =>
                  have h1 := updateEntries_identity iid entries inputs ws
                  rw [hent] at h1
                  simp only [updateAll, hg, hf, hent]
                  exact h1
              | ok r =>
                  obtain ⟨ri, rws⟩ := r
                  have h1 := updateEntries_identity iid entries inputs ws
                  rw [hent] at h1
                  simp only [updResultState] at h1
                  simp only [updateAll, hg, hf, hent]
                  rw [ih ri rws]
                  exact h1

theorem identity_map_keys (l l' : List NInput)
    (h : l'.map identityOf = l.map identityOf) :
    l'.map (fun i => i.key) = l.map (fun i => i.key) := by
  have h1 : (l'.map identityOf).map (fun e => e.1)
      = (l.map identityOf).map (fun e => e.1) := by rw [h]
  simpa only [List.map_map] using h1

theorem projection_fst :
    ∀ (l : List NInput) (p : List (String × Option Val)),
    projection l = Except.ok p → p.map Prod.fst = l.map (fun i => i.key) := by
  intro l
  induction l with
  | nil =>
      intro p h
      cases h
      rfl
  | cons i rest ih =>
      intro p h
      simp only [projection, bind, Except.bind] at h
      cases hnv : normalizedValue i with
      | error e => rw [hnv] at h; cases h
      | ok v =>
          rw [hnv] at h
          cases hrest : projection rest with
          | error e => rw [hrest] at h; cases h
          | ok prest =>
              rw [hrest] at h
              cases h
              simp only [List.map_cons, List.cons.injEq]
              exact ⟨trivial, ih prest hrest⟩

/-- C8: a realtime tuple matching no known input is recorded as a warning
and otherwise ignored — the tuple processor returns without exception and
with the inputs unchanged, processing of the remaining tuples of the batch
continues exactly as if the unknown tuple were absent (with the warning
appended), and a completed cycle returns the projection of every known
input's key, including inputs no tuple touched. -/
theorem update_unknown_tuple (s : Session)
    (fetch : Int → Except Unit (List RTEntry)) (iid dev th : Int)
    (code : String) (v : Val) :
    (∀ inputs ws, inputs.find? (isMatchFor iid dev th code) = none →
      updateTuple iid dev th code v inputs ws
        = Except.ok (inputs, ws ++ [⟨iid, dev, th, code, v⟩]))
    ∧ (∀ items inputs ws,
        inputs.find? (isMatchFor iid dev th code) = none →
        updateData iid dev th ((code, v) :: items) inputs ws
          = updateData iid dev th items inputs
              (ws ++ [⟨iid, dev, th, code, v⟩]))
    ∧ (∀ s' ws p, update s fetch = Except.ok (s', ws, p) →
        p.map Prod.fst = s.inputs.map (fun i => i.key)
        ∧ s'.inputs.map (fun i => i.key) = s.inputs.map (fun i => i.key)) := by
  have htup : ∀ inputs ws, inputs.find? (isMatchFor iid dev th code) = none →
      updateTuple iid dev th code v inputs ws
        = Except.ok (inputs, ws ++ [⟨iid, dev, th, code, v⟩]) := by
    intro inputs ws hfind
    unfold updateTuple
    rw [setFirstBy_none _ v inputs hfind]
  refine ⟨htup, ?_, ?_⟩
  · intro items inputs ws hfind
    simp only [updateData]
    rw [htup inputs ws hfind]
  · intro s' ws p hupd
    unfold update at hupd
    cases hall : updateAll s.groups fetch s.installations s.inputs [] with
    | error st => rw [hall] at hupd; cases hupd
    | ok r =>
        obtain ⟨rinputs, rws2⟩ := r
        rw [hall] at hupd
        cases hproj : projection rinputs with
        | error e =>
            simp only [hproj] at hupd
            cases hupd
        | ok p' =>
            simp only [hproj, Except.ok.injEq, Prod.mk.injEq] at hupd
            obtain ⟨hs', hws, hp⟩ := hupd
            have hid := updateAll_identity s.groups fetch s.installations
              s.inputs []
            rw [hall] at hid
            simp only [updResultState] at hid
            have hkeys := identity_map_keys s.inputs rinputs hid
            constructor
            · rw [← hp, projection_fst rinputs p' hproj]
              exact hkeys
            · rw [← hs']
              exact hkeys

/-- Witness for `update_unknown_tuple`: on a batch whose first tuple is for
unknown code `ZZZ`, the tuple only yields a warning, the second tuple is
still applied, the cycle completes, and the projection covers the full key
set. -/
theorem update_unknown_tuple_witness :
    updateTuple 1 7 9 "ZZZ" (Val.vInt 3) s8.inputs []
      = Except.ok (s8.inputs, [⟨1, 7, 9, "ZZZ", Val.vInt 3⟩])
    ∧ update s8 fetch8
      = Except.ok ({ s8 with inputs := [{ i8 with value := some (Val.vInt 5) }] },
          [⟨1, 7, 9, "ZZZ", Val.vInt 3⟩],
          [("febos_1_7_9_R0001", some (Val.vInt 5))])
    ∧ ([("febos_1_7_9_R0001", some (Val.vInt 5))].map Prod.fst
        = s8.inputs.map (fun i => i.key)) := by
  refine ⟨(update_unknown_tuple s8 fetch8 1 7 9 "ZZZ" (Val.vInt 3)).1
    s8.inputs [] (by rfl), by rfl, ?_⟩
  exact ((update_unknown_tuple s8 fetch8 1 7 9 "ZZZ" (Val.vInt 3)).2.2
    { s8 with inputs := [{ i8 with value := some (Val.vInt 5) }] }
    [⟨1, 7, 9, "ZZZ", Val.vInt 3⟩]
    [("febos_1_7_9_R0001", some (Val.vInt 5))] (by rfl)).1

/-! ## C3 — failure atomicity of discover and update -/

/-- C3 counterexample: a refresh whose second installation's fetch raises
still leaves the value applied by the first installation's tuple — the
session state at the exception differs from the state before the call, so a
failed `update` is observably partially applied. -/
theorem update_partial_state_counterexample :
    update s0C3 fetchC3
      = Except.error { s0C3 with inputs := [{ i8 with value := some (Val.vInt 5) }] }
    ∧ ({ s0C3 with inputs := [{ i8 with value := some (Val.vInt 5) }] } : Session)
        ≠ s0C3 := by
  exact ⟨by rfl, by decide⟩

/-- C3 (amended): a `discover` that raises leaves the session exactly
unchanged (it only commits at the very end); an `update` that raises leaves
the installations, groups, devices and every input's identity and
classification unchanged, but values applied to inputs before the failure
point remain applied. -/
theorem failed_discover_update_state (s : Session) :
    (∀ (pages : Int → Except Unit PageConfig) s',
        discover s pages = Except.error s' → s' = s)
    ∧ (∀ (fetch : Int → Except Unit (List RTEntry)) s',
        update s fetch = Except.error s' →
        s'.installations = s.installations ∧ s'.groups = s.groups
        ∧ s'.devices = s.devices
        ∧ s'.inputs.map identityOf = s.inputs.map identityOf) := by
  constructor
  · intro pages s' h
    unfold discover at h
    cases hall : discoverAll pages s.installations with
    | error e =>
        rw [hall] at h
        cases h
        rfl
    | ok t =>
        obtain ⟨gs, ds, ins⟩ := t
        rw [hall] at h
        cases h
  · intro fetch s' h
    unfold update at h
    cases hall : updateAll s.groups fetch s.installations s.inputs [] with
    | error st =>
        rw [hall] at h
        cases h
        have hid := updateAll_identity s.groups fetch s.installations
          s.inputs []
        rw [hall] at hid
        simp only [updResultState] at hid
        exact ⟨rfl, rfl, rfl, hid⟩
    | ok r =>
        obtain ⟨rinputs, rws⟩ := r
        rw [hall] at h
        cases hproj : projection rinputs with
        | error e =>
            simp only [hproj] at h
            cases h
            have hid := updateAll_identity s.groups fetch s.installations
              s.inputs []
            rw [hall] at hid
            simp only [updResultState] at hid
            exact ⟨rfl, rfl, rfl, hid⟩
        | ok p' =>
            simp only [hproj] at h
            cases h

/-- Witness for `failed_discover_update_state`: a failing page fetch leaves
the undiscovered session unchanged, and the partially-applied failed update
of the counterexample scenario preserves every structural field. -/
theorem failed_discover_update_state_witness :
    discover sessD (fun _ => Except.error ()) = Except.error sessD
    ∧ sessD = sessD
    ∧ ({ s0C3 with inputs := [{ i8 with value := some (Val.vInt 5) }] }
          : Session).installations = s0C3.installations
    ∧ ({ s0C3 with inputs := [{ i8 with value := some (Val.vInt 5) }] }
          : Session).inputs.map identityOf = s0C3.inputs.map identityOf := by
  have h1 := (failed_discover_update_state sessD).1
    (fun _ => Except.error ()) sessD (by rfl)
  have h2 := (failed_discover_update_state s0C3).2 fetchC3
    { s0C3 with inputs := [{ i8 with value := some (Val.vInt 5) }] } (by rfl)
  exact ⟨by rfl, h1, h2.1, h2.2.2.2⟩

end Febos
